import Mathlib

/-!
Verification of the cuesheet-generation core of `musicbrainz-cuesheet`
(`src/main.rs`), shallowly embedded in Lean.

The program fetches a MusicBrainz release and writes one cue-sheet text
file per medium.  The embedding below models the pure transformation:
the data model mirrors the `musicbrainz_rs` entity fields that the
program reads, each `writeln!` is modelled as appending one line
(a `String` without the trailing newline) to a `List String`, and the
`track.length.unwrap()` panic is modelled by `Option` (with `none` for
the aborted run).  Machine integers (`u32`) are modelled as `Nat`, with
an explicit `% 2^32` where the program's addition can wrap.
-/

/-- Mirror of `musicbrainz_rs::entity::artist_credit::ArtistCredit`
(the two fields read by the program). -/
structure ArtistCredit where
  name : String
  joinphrase : Option String
deriving DecidableEq, Repr

/-- Mirror of a genre entry: the program reads only `name`. -/
structure Genre where
  name : String
deriving DecidableEq, Repr

/-- Mirror of a label entity: the program reads only `name`. -/
structure MBLabel where
  name : String
deriving DecidableEq, Repr

/-- Mirror of a `LabelInfo` entry: the program reads only the optional
`label`. -/
structure LabelInfo where
  label : Option MBLabel
deriving DecidableEq, Repr

/-- Model of `chrono::NaiveDate` as the calendar triple; `ordinal` and
the rendering are derived below.  `chrono`'s year is an `i32`; release
dates are CE years, so `Nat` suffices for every value the program can
see. -/
structure NDate where
  year : Nat
  month : Nat
  day : Nat
deriving DecidableEq, Repr

/-- Mirror of the release group: the program reads `genres` and
`first_release_date`. -/
structure ReleaseGroup where
  genres : Option (List Genre)
  first_release_date : Option NDate
deriving DecidableEq, Repr

/-- Mirror of a recording: the program reads only `artist_credit`. -/
structure Recording where
  artist_credit : Option (List ArtistCredit)
deriving DecidableEq, Repr

/-- Mirror of a track: `position : u32`, `title`, `recording`,
`length : Option<u32>` (milliseconds). -/
structure Track where
  position : Nat
  title : String
  recording : Recording
  length : Option Nat
deriving DecidableEq, Repr

/-- Mirror of a medium: `format : Option<String>`,
`position : Option<u32>`, `title : Option<String>`,
`tracks : Option<Vec<Track>>`. -/
structure Medium where
  format : Option String
  position : Option Nat
  title : Option String
  tracks : Option (List Track)
deriving DecidableEq, Repr

/-- Mirror of the release: the fields `main` reads. -/
structure Release where
  id : String
  title : String
  artist_credit : Option (List ArtistCredit)
  release_group : Option ReleaseGroup
  label_info : Option (List LabelInfo)
  media : Option (List Medium)
deriving DecidableEq, Repr

/-- Rust's `format!("{n:02}")` for an unsigned integer: zero-pad to a
minimum width of two digits, never truncating. -/
def pad2 (n : Nat) : String :=
  if n < 10 then "0" ++ toString n else toString n

/-- Zero-pad to four digits, as `chrono`'s `%Y` does for CE years. -/
def pad4 (n : Nat) : String :=
  if n < 10 then "000" ++ toString n
  else if n < 100 then "00" ++ toString n
  else if n < 1000 then "0" ++ toString n
  else toString n

/-- `join_artists` from `main.rs`: concatenation of each credit's name
immediately followed by its join phrase (empty when absent). -/
def join_artists (artists : List ArtistCredit) : String :=
  String.join (artists.map (fun a => a.name ++ a.joinphrase.getD ""))

/-- `millisecond_to_mmssff` from `main.rs`.

The source computes `frames` in `f64` arithmetic:
`((ms as f64 % 1000.0) / (1000.0/75.0)).round() as u32`.
`ms as f64` and the `% 1000.0` are exact for every `u32` input, so the
float division sees an integer `ms_part` in `0..=999`.  For each of
those 1000 residues the IEEE-754 double computation (correctly rounded
division by the double nearest `40/3`, then round-half-away-from-zero)
yields exactly `(ms_part * 3 + 20) / 40` in integer arithmetic — the
exact half points `ms_part ≡ 20 [MOD 40]` round to the representable
half and are then rounded up — which is the formula used here. -/
def millisecond_to_mmssff (ms : Nat) : String :=
  let ms_part := ms % 1000
  let frames := (ms_part * 3 + 20) / 40
  let seconds := (ms / 1000) % 60
  let minutes := ms / 60000
  pad2 minutes ++ ":" ++ pad2 seconds ++ ":" ++ pad2 frames

/-- The `REM COMMENT` loop of `main`: for each `label_info` entry whose
`label` is present (`filter_map`), emit one line unless the name is
empty. -/
def labelLines : List LabelInfo → List String
  | [] => []
  | li :: rest =>
    (match li.label with
      | some l => if l.name.isEmpty then [] else ["REM COMMENT \"" ++ l.name ++ "\""]
      | none => []) ++ labelLines rest

/-- The `REM DATE` value: year only when `ordinal() == 1`, the full
`NaiveDate` rendering otherwise. -/
def NDate.isLeap (y : Nat) : Bool :=
  y % 4 == 0 && (y % 100 != 0 || y % 400 == 0)

/-- Days in the months strictly before month `m` (1-based), the leap
day included when `leap`. -/
def daysBeforeMonth (leap : Bool) (m : Nat) : Nat :=
  (match m with
    | 2 => 31 | 3 => 59 | 4 => 90 | 5 => 120 | 6 => 151 | 7 => 181
    | 8 => 212 | 9 => 243 | 10 => 273 | 11 => 304 | 12 => 334 | _ => 0)
  + (if leap && m ≥ 3 then 1 else 0)

/-- `chrono::Datelike::ordinal`: the 1-based day of the year. -/
def NDate.ordinal (d : NDate) : Nat :=
  daysBeforeMonth (NDate.isLeap d.year) d.month + d.day

/-- `chrono`'s `Display` for `NaiveDate`: `%Y-%m-%d`. -/
def NDate.render (d : NDate) : String :=
  pad4 d.year ++ "-" ++ pad2 d.month ++ "-" ++ pad2 d.day

/-- The `release_cuesheet` header block built by `main` before the
media loop, one list element per `writeln!`. -/
def release_cuesheet_lines (r : Release) : List String :=
  (match r.artist_credit with
    | some artists => ["PERFORMER \"" ++ join_artists artists ++ "\""]
    | none => []) ++
  (match r.release_group with
    | some rg =>
      (match rg.genres with
        | some genres =>
          ["REM GENRE " ++ String.intercalate "; " (genres.map Genre.name)]
        | none => []) ++
      (match rg.first_release_date with
        | some d =>
          ["REM DATE " ++ (if d.ordinal = 1 then toString d.year else d.render)]
        | none => [])
    | none => []) ++
  (match r.label_info with
    | some lis => labelLines lis
    | none => []) ++
  ["REM MUSICBRAINZ_ALBUM_ID " ++ r.id, "FILE \"CDImage.flac\" WAVE"]

/-- The lines a single track contributes before its `INDEX` line:
`TRACK`, `TITLE`, and the `PERFORMER` line when the recording carries
an `artist_credit`. -/
def track_block_head (t : Track) : List String :=
  ["  TRACK " ++ pad2 t.position ++ " AUDIO", "    TITLE \"" ++ t.title ++ "\""] ++
  (match t.recording.artist_credit with
    | some tas => ["    PERFORMER \"" ++ join_artists tas ++ "\""]
    | none => [])

/-- The track loop of `main`.  `track_start` is the running `u32`
offset (the addition wraps modulo `2^32` in the deployed release
profile); `track.length.unwrap()` panics on `none`, modelled by the
whole rendering returning `none`. -/
def tracks_lines : List Track → Nat → Option (List String)
  | [], _ => some []
  | t :: rest, track_start =>
    match t.length with
    | none => none
    | some len =>
      (tracks_lines rest ((track_start + len) % 4294967296)).map
        (fun ls =>
          track_block_head t ++
            ["    INDEX 01 " ++ millisecond_to_mmssff track_start] ++ ls)

/-- `medium_id` from the media loop:
`format!("{} {:02}", format.unwrap_or_default(), position.unwrap_or_default())`. -/
def medium_id (m : Medium) : String :=
  m.format.getD "" ++ " " ++ pad2 (m.position.getD 0)

/-- The medium `TITLE` line: release title, a `- <medium id>` suffix
only when the release has more than one medium, a `: <medium title>`
suffix only when the medium has a non-empty title, all quoted. -/
def medium_title_line (release_title : String) (is_album : Bool) (m : Medium) : String :=
  let t1 := "TITLE \"" ++ release_title
  let t2 := if is_album then t1 ++ "- " ++ medium_id m else t1
  let t3 := match m.title with
    | some t => if t.isEmpty then t2 else t2 ++ ": " ++ t
    | none => t2
  t3 ++ "\""

/-- One medium's cuesheet, as lines: the medium `TITLE` line, then the
shared release header (`format!("{medium_title}\n{release_cuesheet}")`),
then the track blocks; `none` when a track length is missing. -/
def medium_cuesheet_lines (r : Release) (is_album : Bool) (m : Medium) :
    Option (List String) :=
  (tracks_lines (m.tracks.getD []) 0).map
    (fun tls => medium_title_line r.title is_album m :: (release_cuesheet_lines r ++ tls))

/-- Each line of a cuesheet carries a trailing newline. -/
def renderLines (ls : List String) : String :=
  String.join (ls.map (· ++ "\n"))

/-- One medium's cuesheet as the written string. -/
def medium_cuesheet (r : Release) (is_album : Bool) (m : Medium) : Option String :=
  (medium_cuesheet_lines r is_album m).map renderLines

/-- The media loop of `main`: media are rendered and written in order;
a missing track length panics, which aborts the process — the files
written so far stay on disk, the flag records the abort. -/
def write_media (r : Release) (is_album : Bool) :
    List Medium → List (String × String) × Bool
  | [] => ([], false)
  | m :: rest =>
    match medium_cuesheet r is_album m with
    | none => ([], true)
    | some cs =>
      let res := write_media r is_album rest
      ((medium_id m ++ ".cue", cs) :: res.1, res.2)

/-- The cuesheet-generation part of `main`: the written
`(filename, contents)` pairs, and whether the run aborted on a missing
track length. -/
def run_main (r : Release) : List (String × String) × Bool :=
  match r.media with
  | none => ([], false)
  | some media => write_media r (media.length > 1) media

/-- Spec-side description of the track blocks: the same per-track lines
as the builder, but with each track's `INDEX 01` timecode taken from an
explicitly supplied offset list. -/
def trackBlocksAt : List Track → List Nat → List String
  | t :: ts, s :: ss =>
    track_block_head t ++
      ("    INDEX 01 " ++ millisecond_to_mmssff s) :: trackBlocksAt ts ss
  | _, _ => []

/-- Spec-side description of the optional medium-title suffix of the
`TITLE` line. -/
def titleSfx (m : Medium) : String :=
  match m.title with
  | some t => if t.isEmpty then "" else ": " ++ t
  | none => ""

/-- Two strings that disagree at a character index below both of their
lengths stay different after appending arbitrary suffixes. -/
theorem append_ne_of_ne_at (p q : String) (i : Nat)
    (hip : i < p.data.length) (hiq : i < q.data.length)
    (hne : p.data[i]? ≠ q.data[i]?) (x y : String) : p ++ x ≠ q ++ y := by
  intro h
  have hd : p.data ++ x.data = q.data ++ y.data := by
    have h2 := congrArg String.data h
    simpa [String.data_append] using h2
  apply hne
  calc p.data[i]? = (p.data ++ x.data)[i]? := (List.getElem?_append_left hip).symm
    _ = (q.data ++ y.data)[i]? := by rw [hd]
    _ = q.data[i]? := List.getElem?_append_left hiq

/-- `labelLines` is exactly one line per entry with a present, non-empty
label name, in input order. -/
theorem labelLines_eq_filter_map (lis : List LabelInfo) :
    labelLines lis =
      ((lis.filterMap LabelInfo.label).filter (fun l => !l.name.isEmpty)).map
        (fun l => "REM COMMENT \"" ++ l.name ++ "\"") := by
  induction lis with
  | nil => rfl
  | cons li rest ih =>
    cases hl : li.label with
    | none => simp [labelLines, List.filterMap_cons, hl, ih]
    | some l =>
      by_cases he : l.name.isEmpty <;>
        simp [labelLines, List.filterMap_cons, hl, he, List.filter_cons, ih]

/-- Every label-comment line has the `REM COMMENT "..."` shape. -/
theorem mem_labelLines_shape (lis : List LabelInfo) (z : String)
    (hz : z ∈ labelLines lis) :
    ∃ nm : String, z = "REM COMMENT \"" ++ (nm ++ "\"") := by
  rw [labelLines_eq_filter_map] at hz
  obtain ⟨l, _, hzl⟩ := List.mem_map.mp hz
  exact ⟨l.name, by rw [← hzl, String.append_assoc]⟩

/-- Example release for C2: performer present, one single-track medium. -/
def exMC2 : Medium :=
  { format := some "CD", position := some 1, title := none,
    tracks := some [{ position := 1, title := "T1",
                      recording := { artist_credit := none }, length := some 1000 }] }

/-- Example release for C2. -/
def exRC2 : Release :=
  { id := "MBID", title := "A",
    artist_credit := some [{ name := "X", joinphrase := none }],
    release_group := none, label_info := none, media := some [exMC2] }

/-- Claim C1: the frames field of the emitted timecode stays below 75
for every input.  The code has no carry guard: at `ms = 999` the
rounded frame count is 75 and the output is `00:00:75`. -/
theorem c1_frames_reach_75 : millisecond_to_mmssff 999 = "00:00:75" := by
  rfl

/-- Claim C2, counterexample: the generated medium cuesheet puts the
medium `TITLE` line first and the header block after it, not the order
the claim states (header block first, then the `TITLE` line, then the
track blocks). -/
theorem c2_counterexample :
    medium_cuesheet_lines exRC2 false exMC2 =
      some ["TITLE \"A\"", "PERFORMER \"X\"", "REM MUSICBRAINZ_ALBUM_ID MBID",
        "FILE \"CDImage.flac\" WAVE", "  TRACK 01 AUDIO", "    TITLE \"T1\"",
        "    INDEX 01 00:00:00"] ∧
    medium_cuesheet_lines exRC2 false exMC2 ≠
      some (release_cuesheet_lines exRC2 ++
        [medium_title_line exRC2.title false exMC2] ++
        ["  TRACK 01 AUDIO", "    TITLE \"T1\"", "    INDEX 01 00:00:00"]) := by
  constructor
  · rfl
  · decide

/-- Claim C2 (amended): for every medium the cuesheet lines are the
medium `TITLE` line first, then the header block in its fixed order
(`PERFORMER`, `REM GENRE`, `REM DATE`, the `REM COMMENT` lines,
`REM MUSICBRAINZ_ALBUM_ID`, the `FILE` declaration), then the track
blocks. -/
theorem c2_title_then_header_then_tracks (r : Release) (ia : Bool) (m : Medium)
    (acs : List ArtistCredit) (gs : List Genre) (d : NDate)
    (lis : List LabelInfo) (tls : List String)
    (hac : r.artist_credit = some acs)
    (hrg : r.release_group = some { genres := some gs, first_release_date := some d })
    (hli : r.label_info = some lis)
    (htr : tracks_lines (m.tracks.getD []) 0 = some tls) :
    medium_cuesheet_lines r ia m =
      some (medium_title_line r.title ia m ::
        ("PERFORMER \"" ++ join_artists acs ++ "\"") ::
        ("REM GENRE " ++ String.intercalate "; " (gs.map Genre.name)) ::
        ("REM DATE " ++ (if d.ordinal = 1 then toString d.year else d.render)) ::
        (labelLines lis ++
          ("REM MUSICBRAINZ_ALBUM_ID " ++ r.id) ::
          "FILE \"CDImage.flac\" WAVE" :: tls)) := by
  simp [medium_cuesheet_lines, htr, release_cuesheet_lines, hac, hrg, hli]

/-- Example medium for the C2 witness. -/
def exMW2 : Medium :=
  { format := some "CD", position := some 2, title := none,
    tracks := some [{ position := 1, title := "T1",
                      recording := { artist_credit := none }, length := some 1000 }] }

/-- Example fully-populated release for the C2 witness. -/
def exRW2 : Release :=
  { id := "MBID2", title := "B",
    artist_credit := some [{ name := "Y", joinphrase := none }],
    release_group := some { genres := some [{ name := "rock" }],
                            first_release_date := some { year := 2020, month := 5, day := 6 } },
    label_info := some [{ label := some { name := "L" } }],
    media := some [exMW2] }

/-- Witness for the amended C2 at a concrete fully-populated release. -/
theorem c2_title_then_header_then_tracks_witness :
    medium_cuesheet_lines exRW2 true exMW2 =
      some (medium_title_line exRW2.title true exMW2 ::
        ("PERFORMER \"" ++ join_artists [{ name := "Y", joinphrase := none }] ++ "\"") ::
        ("REM GENRE " ++ String.intercalate "; "
          ([({ name := "rock" } : Genre)].map Genre.name)) ::
        ("REM DATE " ++
          (if ({ year := 2020, month := 5, day := 6 } : NDate).ordinal = 1
            then toString ({ year := 2020, month := 5, day := 6 } : NDate).year
            else ({ year := 2020, month := 5, day := 6 } : NDate).render)) ::
        (labelLines [{ label := some { name := "L" } }] ++
          ("REM MUSICBRAINZ_ALBUM_ID " ++ exRW2.id) ::
          "FILE \"CDImage.flac\" WAVE" ::
          ["  TRACK 01 AUDIO", "    TITLE \"T1\"", "    INDEX 01 00:00:00"])) :=
  c2_title_then_header_then_tracks exRW2 true exMW2
    [{ name := "Y", joinphrase := none }] [{ name := "rock" }]
    { year := 2020, month := 5, day := 6 } [{ label := some { name := "L" } }]
    ["  TRACK 01 AUDIO", "    TITLE \"T1\"", "    INDEX 01 00:00:00"]
    rfl rfl rfl rfl

/-- The running offsets the track loop feeds to the Timecode Converter:
each track starts where the previous one ended. -/
def offsetsFrom (s : Nat) : List Nat → List Nat
  | [] => []
  | l :: ls => s :: offsetsFrom (s + l) ls

/-- The running offsets are the partial sums of the track lengths. -/
theorem offsetsFrom_eq_map (ls : List Nat) (s : Nat) :
    offsetsFrom s ls = (List.range ls.length).map (fun k => s + (ls.take k).sum) := by
  induction ls generalizing s with
  | nil => rfl
  | cons l ls2 ih =>
    rw [List.length_cons, List.range_succ_eq_map, List.map_cons, List.map_map]
    have h1 : ((fun k => s + ((l :: ls2).take k).sum) ∘ Nat.succ)
        = fun k => (s + l) + (ls2.take k).sum := by
      funext k
      simp [Function.comp_apply, List.take_succ_cons, Nat.add_assoc]
    rw [h1]
    simp [offsetsFrom, ih (s + l)]

/-- When every track length is present and the running `u32` offset
cannot wrap, the track loop renders each track's block with the
`INDEX 01` timecode of the accumulated start offset. -/
theorem tracks_lines_eq_trackBlocksAt (ts : List Track) (ls : List Nat) (s : Nat)
    (hlen : ts.map Track.length = ls.map some)
    (hb : s + ls.sum < 4294967296) :
    tracks_lines ts s = some (trackBlocksAt ts (offsetsFrom s ls)) := by
  induction ts generalizing ls s with
  | nil =>
    cases ls with
    | nil => rfl
    | cons l ls2 => simp at hlen
  | cons t ts2 ih =>
    cases ls with
    | nil => simp at hlen
    | cons l ls2 =>
      simp only [List.map_cons, List.cons.injEq] at hlen
      obtain ⟨h1, h2⟩ := hlen
      simp only [List.sum_cons] at hb
      have hmod : (s + l) % 4294967296 = s + l := Nat.mod_eq_of_lt (by omega)
      have ihr := ih ls2 (s + l) h2 (by omega)
      simp [tracks_lines, h1, hmod, ihr, offsetsFrom, trackBlocksAt]

/-- Example tracks for the C3 witness: the spec scenario of two tracks
of 180000 ms and 200000 ms. -/
def exTracks3 : List Track :=
  [{ position := 1, title := "S1", recording := { artist_credit := none },
     length := some 180000 },
   { position := 2, title := "S2", recording := { artist_credit := none },
     length := some 200000 }]

/-- Example lengths for the C3 witness. -/
def exLens3 : List Nat := [180000, 200000]

/-- Example medium for the C3 witness. -/
def exM3 : Medium :=
  { format := some "CD", position := some 1, title := none, tracks := some exTracks3 }

/-- Example release for the C3 witness. -/
def exR3 : Release :=
  { id := "MBID3", title := "Album", artist_credit := none, release_group := none,
    label_info := none, media := some [exM3] }

/-- Claim C3: the `INDEX 01` timecode of track `k` (1-indexed) is the
converter applied to the sum of the lengths of tracks `1..k-1`; the
offset list starts at `(ls.take 0).sum = 0`, so track 1's timecode is
`millisecond_to_mmssff 0 = "00:00:00"`, and each medium's offsets are
computed from 0 independently of every other medium. -/
theorem c3_index_timecodes (r : Release) (ia : Bool) (m : Medium)
    (ts : List Track) (ls : List Nat)
    (hts : m.tracks = some ts)
    (hlen : ts.map Track.length = ls.map some)
    (hb : ls.sum < 4294967296) :
    medium_cuesheet_lines r ia m =
      some (medium_title_line r.title ia m ::
        (release_cuesheet_lines r ++
          trackBlocksAt ts ((List.range ts.length).map (fun k => (ls.take k).sum)))) ∧
    millisecond_to_mmssff ((ls.take 0).sum) = "00:00:00" := by
  constructor
  · have h := tracks_lines_eq_trackBlocksAt ts ls 0 hlen (by omega)
    rw [offsetsFrom_eq_map] at h
    simp only [Nat.zero_add] at h
    have hl : ts.length = ls.length := by
      have := congrArg List.length hlen
      simpa using this
    rw [hl]
    simp [medium_cuesheet_lines, hts, h]
  · simp only [List.take_zero, List.sum_nil]
    rfl

/-- Witness for C3 on the spec scenario: track 1 starts at `00:00:00`
and track 2 at `03:00:00`. -/
theorem c3_index_timecodes_witness :
    medium_cuesheet_lines exR3 false exM3 =
      some ["TITLE \"Album\"", "REM MUSICBRAINZ_ALBUM_ID MBID3",
        "FILE \"CDImage.flac\" WAVE",
        "  TRACK 01 AUDIO", "    TITLE \"S1\"", "    INDEX 01 00:00:00",
        "  TRACK 02 AUDIO", "    TITLE \"S2\"", "    INDEX 01 03:00:00"] ∧
    millisecond_to_mmssff ((exLens3.take 0).sum) = "00:00:00" := by
  have h := c3_index_timecodes exR3 false exM3 exTracks3 exLens3 rfl rfl (by decide)
  exact ⟨h.1.trans (by rfl), h.2⟩

/-- A track list containing a track without a length renders to `none`
(the `unwrap` panic). -/
theorem tracks_lines_none_of_mem (ts : List Track) (s : Nat) (u : Track)
    (hu : u ∈ ts) (hnone : u.length = none) : tracks_lines ts s = none := by
  induction ts generalizing s with
  | nil => simp at hu
  | cons t ts2 ih =>
    rcases List.mem_cons.mp hu with heq | hmem
    · subst heq
      simp [tracks_lines, hnone]
    · cases hl : t.length with
      | none => simp [tracks_lines, hl]
      | some l => simp [tracks_lines, hl, ih _ hmem]

/-- If any medium of the list fails to render, the run aborts. -/
theorem write_media_aborted (r : Release) (ia : Bool) (ms : List Medium)
    (m : Medium) (hm : m ∈ ms) (hfail : medium_cuesheet r ia m = none) :
    (write_media r ia ms).2 = true := by
  induction ms with
  | nil => simp at hm
  | cons m0 rest ih =>
    rcases List.mem_cons.mp hm with heq | hmem
    · subst heq
      simp [write_media, hfail]
    · cases hc : medium_cuesheet r ia m0 with
      | none => simp [write_media, hc]
      | some cs => simp [write_media, hc, ih hmem]

/-- Example medium for the C4 witness: the first of two tracks has no
length. -/
def exM4 : Medium :=
  { format := some "CD", position := some 1, title := none,
    tracks := some
      [{ position := 1, title := "U1", recording := { artist_credit := none },
         length := none },
       { position := 2, title := "U2", recording := { artist_credit := none },
         length := some 1000 }] }

/-- Example release for the C4 witness. -/
def exR4 : Release :=
  { id := "MBID4", title := "C", artist_credit := none, release_group := none,
    label_info := none, media := some [exM4] }

/-- Claim C4: a missing `length_ms` on a non-terminal track (index `i`
with `i + 1 < ts.length`) makes the medium's cuesheet rendering fail —
no output string at all, in particular none with the length defaulted
to zero — and the whole run aborts. -/
theorem c4_missing_length_nonterminal_fatal (r : Release) (media : List Medium)
    (m : Medium) (ts : List Track) (i : Nat) (t : Track)
    (hmedia : r.media = some media) (hm : m ∈ media)
    (hts : m.tracks = some ts)
    (hi : i + 1 < ts.length) (hget : ts[i]? = some t) (hnone : t.length = none) :
    medium_cuesheet r (media.length > 1) m = none ∧ (run_main r).2 = true := by
  have hmem : t ∈ ts := List.getElem?_mem hget
  have hfail : medium_cuesheet r (media.length > 1) m = none := by
    simp [medium_cuesheet, medium_cuesheet_lines, hts,
      tracks_lines_none_of_mem ts 0 t hmem hnone]
  refine ⟨hfail, ?_⟩
  rw [run_main, hmedia]
  exact write_media_aborted r (media.length > 1) media m hm hfail

/-- Witness for C4: the concrete release above aborts. -/
theorem c4_missing_length_nonterminal_fatal_witness :
    medium_cuesheet exR4 ([exM4].length > 1) exM4 = none ∧
    (run_main exR4).2 = true :=
  c4_missing_length_nonterminal_fatal exR4 [exM4] exM4
    [{ position := 1, title := "U1", recording := { artist_credit := none },
       length := none },
     { position := 2, title := "U2", recording := { artist_credit := none },
       length := some 1000 }] 0
    { position := 1, title := "U1", recording := { artist_credit := none },
      length := none }
    rfl (List.mem_singleton.mpr rfl) rfl (by decide) rfl rfl

/-- Example medium for the C10 witness: the single (hence final) track
has no length. -/
def exM10 : Medium :=
  { format := some "CD", position := some 1, title := none,
    tracks := some
      [{ position := 1, title := "V1", recording := { artist_credit := none },
         length := none }] }

/-- Example release for the C10 witness. -/
def exR10 : Release :=
  { id := "MBID10", title := "D", artist_credit := none, release_group := none,
    label_info := none, media := some [exM10] }

/-- Claim C10: a missing `length_ms` on the final track of a medium is
also fatal — the length is unwrapped before the track's `INDEX` line is
emitted, so the rendering fails and the run aborts even though the
final length feeds no emitted timecode. -/
theorem c10_missing_length_final_fatal (r : Release) (media : List Medium)
    (m : Medium) (ts : List Track)
    (hmedia : r.media = some media) (hm : m ∈ media)
    (hts : m.tracks = some ts) (hne : ts ≠ [])
    (hnone : (ts.getLast hne).length = none) :
    medium_cuesheet r (media.length > 1) m = none ∧ (run_main r).2 = true := by
  have hmem : ts.getLast hne ∈ ts := List.getLast_mem hne
  have hfail : medium_cuesheet r (media.length > 1) m = none := by
    simp [medium_cuesheet, medium_cuesheet_lines, hts,
      tracks_lines_none_of_mem ts 0 _ hmem hnone]
  refine ⟨hfail, ?_⟩
  rw [run_main, hmedia]
  exact write_media_aborted r (media.length > 1) media m hm hfail

/-- Witness for C10: a single-track medium whose only track lacks a
length aborts the run. -/
theorem c10_missing_length_final_fatal_witness :
    medium_cuesheet exR10 ([exM10].length > 1) exM10 = none ∧
    (run_main exR10).2 = true :=
  c10_missing_length_final_fatal exR10 [exM10] exM10
    [{ position := 1, title := "V1", recording := { artist_credit := none },
       length := none }]
    rfl (List.mem_singleton.mpr rfl) rfl (by decide) rfl

/-- A `REM GENRE` line is never a `PERFORMER` line. -/
theorem genre_ne_performer (v x : String) :
    "REM GENRE " ++ v ≠ "PERFORMER \"" ++ x ++ "\"" := by
  rw [String.append_assoc]
  exact append_ne_of_ne_at "REM GENRE " "PERFORMER \"" 0
    (by decide) (by decide) (by decide) v (x ++ "\"")

/-- A `REM GENRE` line is never a `REM DATE` line. -/
theorem genre_ne_date (v x : String) : "REM GENRE " ++ v ≠ "REM DATE " ++ x :=
  append_ne_of_ne_at "REM GENRE " "REM DATE " 4
    (by decide) (by decide) (by decide) v x

/-- A `REM GENRE` line is never a `REM COMMENT` line. -/
theorem genre_ne_comment (v x : String) :
    "REM GENRE " ++ v ≠ "REM COMMENT \"" ++ x :=
  append_ne_of_ne_at "REM GENRE " "REM COMMENT \"" 4
    (by decide) (by decide) (by decide) v x

/-- A `REM GENRE` line is never the album-id line. -/
theorem genre_ne_albumid (v x : String) :
    "REM GENRE " ++ v ≠ "REM MUSICBRAINZ_ALBUM_ID " ++ x :=
  append_ne_of_ne_at "REM GENRE " "REM MUSICBRAINZ_ALBUM_ID " 4
    (by decide) (by decide) (by decide) v x

/-- A `REM GENRE` line is never the `FILE` declaration. -/
theorem genre_ne_file (v : String) :
    "REM GENRE " ++ v ≠ "FILE \"CDImage.flac\" WAVE" := by
  have h := append_ne_of_ne_at "REM GENRE " "FILE \"CDImage.flac\" WAVE" 0
    (by decide) (by decide) (by decide) v ""
  simpa [String.append_empty] using h

/-- Every line of the header block has one of six shapes; a `REM GENRE`
line occurs only when the release group and its genre list field are
both present. -/
theorem mem_release_header_shapes (r : Release) (z : String)
    (hz : z ∈ release_cuesheet_lines r) :
    (∃ x, z = "PERFORMER \"" ++ x ++ "\"") ∨
    (∃ rg gs, r.release_group = some rg ∧ rg.genres = some gs ∧
      z = "REM GENRE " ++ String.intercalate "; " (gs.map Genre.name)) ∨
    (∃ x, z = "REM DATE " ++ x) ∨
    (∃ x, z = "REM COMMENT \"" ++ x) ∨
    z = "REM MUSICBRAINZ_ALBUM_ID " ++ r.id ∨
    z = "FILE \"CDImage.flac\" WAVE" := by
  rw [release_cuesheet_lines] at hz
  rcases List.mem_append.mp hz with h1 | hid
  · rcases List.mem_append.mp h1 with h2 | hlab
    · rcases List.mem_append.mp h2 with hperf | hgrp
      · cases hac : r.artist_credit with
        | none => rw [hac] at hperf; simp at hperf
        | some acs =>
          rw [hac] at hperf
          simp only [List.mem_singleton] at hperf
          exact Or.inl ⟨join_artists acs, hperf⟩
      · cases hrg : r.release_group with
        | none => rw [hrg] at hgrp; simp at hgrp
        | some rg =>
          rw [hrg] at hgrp
          rcases List.mem_append.mp hgrp with hgen | hdat
          · cases hgs : rg.genres with
            | none => rw [hgs] at hgen; simp at hgen
            | some gs =>
              rw [hgs] at hgen
              simp only [List.mem_singleton] at hgen
              exact Or.inr (Or.inl ⟨rg, gs, rfl, hgs, hgen⟩)
          · cases hd : rg.first_release_date with
            | none => rw [hd] at hdat; simp at hdat
            | some d =>
              rw [hd] at hdat
              simp only [List.mem_singleton] at hdat
              exact Or.inr (Or.inr (Or.inl ⟨_, hdat⟩))
    · have hlab2 : ∃ lis, z ∈ labelLines lis := by
        cases hli : r.label_info with
        | none => rw [hli] at hlab; simp at hlab
        | some lis => rw [hli] at hlab; exact ⟨lis, hlab⟩
      obtain ⟨lis, hmem⟩ := hlab2
      obtain ⟨nm, hnm⟩ := mem_labelLines_shape _ _ hmem
      exact Or.inr (Or.inr (Or.inr (Or.inl ⟨nm ++ "\"", hnm⟩)))
  · rcases List.mem_cons.mp hid with h | h
    · exact Or.inr (Or.inr (Or.inr (Or.inr (Or.inl h))))
    · simp only [List.mem_singleton] at h
      exact Or.inr (Or.inr (Or.inr (Or.inr (Or.inr h))))

/-- Example release for the C5 counterexample: the release group is
present and its genre list is present but empty. -/
def exR5 : Release :=
  { id := "MBID5", title := "E", artist_credit := none,
    release_group := some { genres := some [], first_release_date := none },
    label_info := none, media := none }

/-- Claim C5, counterexample: with a present but empty genre list the
header still contains a `REM GENRE` line (with an empty value), though
the claim requires the line only for a non-empty genre list. -/
theorem c5_counterexample :
    (exR5.release_group.map ReleaseGroup.genres) = some (some []) ∧
    "REM GENRE " ∈ release_cuesheet_lines exR5 := by
  constructor
  · rfl
  · decide

/-- Claim C5 (amended): the header contains a `REM GENRE` line exactly
when the release has a release group whose `genres` field is present —
even when that list is empty — and the emitted value is the genre names
joined by `"; "` in input order. -/
theorem c5_genre_line_iff (r : Release) :
    ((∃ v, ("REM GENRE " ++ v) ∈ release_cuesheet_lines r) ↔
      ∃ rg, r.release_group = some rg ∧ ∃ gs, rg.genres = some gs) ∧
    (∀ rg gs, r.release_group = some rg → rg.genres = some gs →
      ("REM GENRE " ++ String.intercalate "; " (gs.map Genre.name)) ∈
        release_cuesheet_lines r) := by
  have hmem : ∀ rg gs, r.release_group = some rg → rg.genres = some gs →
      ("REM GENRE " ++ String.intercalate "; " (gs.map Genre.name)) ∈
        release_cuesheet_lines r := by
    intro rg gs hrg hgs
    simp [release_cuesheet_lines, hrg, hgs]
  refine ⟨⟨?_, ?_⟩, hmem⟩
  · rintro ⟨v, hv⟩
    rcases mem_release_header_shapes r _ hv with
      ⟨x, hx⟩ | ⟨rg, gs, hrg, hgs, _⟩ | ⟨x, hx⟩ | ⟨x, hx⟩ | hx | hx
    · exact absurd hx (genre_ne_performer v x)
    · exact ⟨rg, hrg, gs, hgs⟩
    · exact absurd hx (genre_ne_date v x)
    · exact absurd hx (genre_ne_comment v x)
    · exact absurd hx (genre_ne_albumid v r.id)
    · exact absurd hx (genre_ne_file v)
  · rintro ⟨rg, hrg, gs, hgs⟩
    exact ⟨_, hmem rg gs hrg hgs⟩

/-- A track `PERFORMER` line is never a `TRACK` line. -/
theorem performer_ne_track (v x : String) :
    "    PERFORMER \"" ++ v ≠ "  TRACK " ++ x :=
  append_ne_of_ne_at "    PERFORMER \"" "  TRACK " 2
    (by decide) (by decide) (by decide) v x

/-- A track `PERFORMER` line is never a track `TITLE` line. -/
theorem performer_ne_title (v x : String) :
    "    PERFORMER \"" ++ v ≠ "    TITLE \"" ++ x :=
  append_ne_of_ne_at "    PERFORMER \"" "    TITLE \"" 4
    (by decide) (by decide) (by decide) v x

/-- A track `PERFORMER` line is never an `INDEX` line. -/
theorem performer_ne_index (v x : String) :
    "    PERFORMER \"" ++ v ≠ "    INDEX 01 " ++ x :=
  append_ne_of_ne_at "    PERFORMER \"" "    INDEX 01 " 4
    (by decide) (by decide) (by decide) v x

/-- Example track for the C6 counterexample: the recording's artist
credit list is present but empty. -/
def exT6 : Track :=
  { position := 3, title := "W", recording := { artist_credit := some [] },
    length := some 1000 }

/-- Claim C6, counterexample: a track whose recording has a present but
empty artist-credit list gets a `PERFORMER ""` line with empty quotes,
though the claim says a track without credits omits the line. -/
theorem c6_counterexample :
    exT6.recording.artist_credit = some [] ∧
    "    PERFORMER \"\"" ∈ track_block_head exT6 := by
  constructor
  · rfl
  · decide

/-- Claim C6 (amended): a track's block carries a `PERFORMER` sub-line
exactly when the recording's `artist_credit` field is present — even
when the credit list is empty — and the emitted value is the joined
credits. -/
theorem c6_track_performer_iff (t : Track) (s : Nat) :
    ((∃ v, ("    PERFORMER \"" ++ v) ∈
        track_block_head t ++ ["    INDEX 01 " ++ millisecond_to_mmssff s]) ↔
      (t.recording.artist_credit).isSome = true) ∧
    (∀ tas, t.recording.artist_credit = some tas →
      ("    PERFORMER \"" ++ (join_artists tas ++ "\"")) ∈ track_block_head t) := by
  have hmem : ∀ tas, t.recording.artist_credit = some tas →
      ("    PERFORMER \"" ++ (join_artists tas ++ "\"")) ∈ track_block_head t := by
    intro tas htas
    simp [track_block_head, htas, String.append_assoc]
  refine ⟨⟨?_, ?_⟩, hmem⟩
  · rintro ⟨v, hv⟩
    cases hac : t.recording.artist_credit with
    | some tas => rfl
    | none =>
      rw [track_block_head, hac] at hv
      simp only [List.append_nil, List.cons_append, List.nil_append,
        List.mem_cons, List.mem_singleton, List.not_mem_nil, or_false] at hv
      rcases hv with h | h | h
      · rw [String.append_assoc] at h
        exact absurd h (performer_ne_track v (pad2 t.position ++ " AUDIO"))
      · rw [String.append_assoc] at h
        exact absurd h (performer_ne_title v (t.title ++ "\""))
      · exact absurd h (performer_ne_index v (millisecond_to_mmssff s))
  · intro hsome
    obtain ⟨tas, htas⟩ := Option.isSome_iff_exists.mp hsome
    exact ⟨join_artists tas ++ "\"",
      List.mem_append_left _ (hmem tas htas)⟩

/-- Example track for the C6 witness. -/
def exT6w : Track :=
  { position := 1, title := "W2",
    recording := { artist_credit := some [{ name := "Z", joinphrase := none }] },
    length := some 5 }

/-- Witness for the amended C6 at a concrete track. -/
theorem c6_track_performer_iff_witness :
    ("    PERFORMER \"" ++
      (join_artists [{ name := "Z", joinphrase := none }] ++ "\"")) ∈
      track_block_head exT6w :=
  (c6_track_performer_iff exT6w 0).2 _ rfl

/-- Example release for the C7 counterexample: two label-info entries
with the same label name. -/
def exR7 : Release :=
  { id := "MBID7", title := "G", artist_credit := none, release_group := none,
    label_info := some [{ label := some { name := "L" } },
                        { label := some { name := "L" } }],
    media := none }

/-- Claim C7, counterexample: duplicate label names are not
deduplicated — the same name yields one `REM COMMENT` line per
occurrence, so a label name can produce more than one line. -/
theorem c7_counterexample :
    (release_cuesheet_lines exR7).count "REM COMMENT \"L\"" = 2 := by
  rfl

/-- Claim C7 (amended): the header carries one `REM COMMENT` line per
label-info entry whose label is present with a non-empty name, in input
order — entries with a missing label or an empty name are skipped, and
duplicate names are repeated, not collapsed. -/
theorem c7_label_comment_per_entry (lis : List LabelInfo) :
    labelLines lis =
      ((lis.filterMap LabelInfo.label).filter (fun l => !l.name.isEmpty)).map
        (fun l => "REM COMMENT \"" ++ l.name ++ "\"") :=
  labelLines_eq_filter_map lis

/-- Claim C8: when the release group carries a first-release date, the
`REM DATE` line renders only the year when the date's day-of-year is 1,
and the full date otherwise. -/
theorem c8_date_line (r : Release) (rg : ReleaseGroup) (d : NDate)
    (hrg : r.release_group = some rg) (hd : rg.first_release_date = some d) :
    (d.ordinal = 1 →
      ("REM DATE " ++ toString d.year) ∈ release_cuesheet_lines r) ∧
    (d.ordinal ≠ 1 →
      ("REM DATE " ++ d.render) ∈ release_cuesheet_lines r) := by
  constructor
  · intro h1
    simp [release_cuesheet_lines, hrg, hd, h1]
  · intro h1
    simp [release_cuesheet_lines, hrg, hd, h1]

/-- Example release for the C8 witness: dated January 1st, which has
day-of-year 1 and so renders as the year alone. -/
def exR8 : Release :=
  { id := "MBID8", title := "H", artist_credit := none,
    release_group := some
      { genres := none,
        first_release_date := some { year := 2021, month := 1, day := 1 } },
    label_info := none, media := none }

/-- Witness for C8: the January-1st date renders year-only. -/
theorem c8_date_line_witness :
    ("REM DATE " ++ toString ({ year := 2021, month := 1, day := 1 } : NDate).year) ∈
      release_cuesheet_lines exR8 :=
  (c8_date_line exR8
    { genres := none,
      first_release_date := some { year := 2021, month := 1, day := 1 } }
    { year := 2021, month := 1, day := 1 } rfl rfl).1 (by decide)

/-- When every medium renders, the run writes one file per medium, in
order, named by the medium identifier. -/
theorem write_media_map_fst (r : Release) (ia : Bool) (ms : List Medium)
    (hall : ∀ m2 ∈ ms, (tracks_lines (m2.tracks.getD []) 0).isSome = true) :
    (write_media r ia ms).1.map Prod.fst =
      ms.map (fun m2 => medium_id m2 ++ ".cue") := by
  induction ms with
  | nil => rfl
  | cons m0 rest ih =>
    have h0 := hall m0 (List.mem_cons_self m0 rest)
    obtain ⟨tls, htls⟩ := Option.isSome_iff_exists.mp h0
    have hrest := ih (fun m2 hm2 => hall m2 (List.mem_cons_of_mem m0 hm2))
    simp [write_media, medium_cuesheet, medium_cuesheet_lines, htls, hrest]

/-- Claim C9: with a single medium the `TITLE` line carries no medium
identifier; with two or more media it always does; the identifier is
`<format> <two-digit position>` with pass-through defaults (empty
string and 0), and each medium's file is named `<identifier>.cue`. -/
theorem c9_medium_identifier (r : Release) (media : List Medium) (m : Medium)
    (hmedia : r.media = some media) (hm : m ∈ media)
    (hall : ∀ m2 ∈ media, (tracks_lines (m2.tracks.getD []) 0).isSome = true) :
    (media.length = 1 →
      medium_title_line r.title (media.length > 1) m =
        "TITLE \"" ++ r.title ++ titleSfx m ++ "\"") ∧
    (2 ≤ media.length →
      medium_title_line r.title (media.length > 1) m =
        "TITLE \"" ++ r.title ++ "- " ++ medium_id m ++ titleSfx m ++ "\"") ∧
    medium_id m = m.format.getD "" ++ " " ++ pad2 (m.position.getD 0) ∧
    (medium_id m ++ ".cue") ∈ (run_main r).1.map Prod.fst := by
  refine ⟨?_, ?_, rfl, ?_⟩
  · intro h1
    have hb : (decide (media.length > 1)) = false := by
      rw [h1]; rfl
    cases hmt : m.title with
    | none =>
      simp [medium_title_line, hb, titleSfx, hmt, String.append_empty]
    | some t =>
      by_cases he : t.isEmpty <;>
        simp [medium_title_line, hb, titleSfx, hmt, he,
          String.append_empty, String.append_assoc]
  · intro h2
    have hb : (decide (media.length > 1)) = true := by
      simp only [decide_eq_true_eq]
      omega
    cases hmt : m.title with
    | none =>
      simp [medium_title_line, hb, titleSfx, hmt, String.append_empty,
        String.append_assoc]
    | some t =>
      by_cases he : t.isEmpty <;>
        simp [medium_title_line, hb, titleSfx, hmt, he,
          String.append_empty, String.append_assoc]
  · rw [run_main, hmedia, write_media_map_fst r _ media hall]
    exact List.mem_map_of_mem _ hm

/-- Example first medium for the C9 witness. -/
def exM9a : Medium :=
  { format := some "CD", position := some 1, title := none, tracks := some [] }

/-- Example second medium for the C9 witness: format and position both
absent, exercising the pass-through defaults. -/
def exM9b : Medium :=
  { format := none, position := none, title := none, tracks := none }

/-- Example two-media release for the C9 witness. -/
def exR9 : Release :=
  { id := "MBID9", title := "I", artist_credit := none, release_group := none,
    label_info := none, media := some [exM9a, exM9b] }

/-- Witness for C9 on a two-media release: the second medium's title
line carries the identifier built from the defaults, and its file is
named by the identifier. -/
theorem c9_medium_identifier_witness :
    medium_title_line exR9.title ([exM9a, exM9b].length > 1) exM9b =
      "TITLE \"" ++ exR9.title ++ "- " ++ medium_id exM9b ++ titleSfx exM9b ++ "\"" ∧
    (medium_id exM9b ++ ".cue") ∈ (run_main exR9).1.map Prod.fst := by
  have h := c9_medium_identifier exR9 [exM9a, exM9b] exM9b rfl
    (by decide) (by decide)
  exact ⟨h.2.1 (by decide), h.2.2.2⟩

/-- Witness for the amended C5 at a concrete release. -/
theorem c5_genre_line_iff_witness :
    ("REM GENRE " ++
      String.intercalate "; " ([({ name := "rock" } : Genre),
        { name := "pop" }].map Genre.name)) ∈
      release_cuesheet_lines
        { id := "MBID5w", title := "F", artist_credit := none,
          release_group := some
            { genres := some [{ name := "rock" }, { name := "pop" }],
              first_release_date := none },
          label_info := none, media := none } :=
  (c5_genre_line_iff _).2 _ _ rfl rfl
